import Mathlib

/-!
Verification of the C binding header
`src/engine/vendor/imgui/backends/cimgui_impl_metal.h` against its
natural-language specification.

The header is declarations only: five opaque pointer typedefs and six
C-linkage function declarations.  We embed the declaration surface as
explicit Lean data (`headerTypedefs`, `headerFunctions`), translated
line by line from the source.  Behavioural claims (caller protocol,
idempotence of the device-object hooks, pass-through refinement) concern
the implementation file `imgui_impl_metal.mm`, which is not part of the
repository snapshot; those parts are modelled from the spec, as marked
on each definition.
-/

namespace CImGuiMetal

/-- C types as they occur in this header: `void`, `bool` (from
`<stdbool.h>`) and pointer types. -/
inductive CType where
  | void : CType
  | bool : CType
  | ptr : CType → CType
  deriving DecidableEq, Repr

/-- A `typedef` declaration: the new alias name and the aliased type. -/
structure CTypedef where
  name : String
  target : CType
  deriving DecidableEq, Repr

/-- Linkage of a declaration.  Everything in the header sits inside the
`extern "C"` block (C++); under a C compiler the declarations have C
linkage by default. -/
inductive Linkage where
  | c : Linkage
  | cpp : Linkage
  deriving DecidableEq, Repr

/-- The type of a function parameter as written in the header: either a
reference to one of the typedef aliases (by name) or a base C type. -/
inductive CParamType where
  | alias (name : String) : CParamType
  | base (t : CType) : CParamType
  deriving DecidableEq, Repr

/-- A function declaration: name, parameter list (name and written
type, in order), return type and linkage. -/
structure CFunDecl where
  name : String
  params : List (String × CParamType)
  ret : CType
  linkage : Linkage
  deriving DecidableEq, Repr

/-- The five opaque pointer typedefs of the header, in source order
(lines 13–17): each aliases `void*`. -/
def headerTypedefs : List CTypedef :=
  [ ⟨"cImGui_MTLDevice", CType.ptr CType.void⟩,
    ⟨"cImGui_MTLCommandBuffer", CType.ptr CType.void⟩,
    ⟨"cImGui_MTLRenderCommandEncoder", CType.ptr CType.void⟩,
    ⟨"cImGui_MTLRenderPassDescriptor", CType.ptr CType.void⟩,
    ⟨"cImGui_ImDrawData", CType.ptr CType.void⟩ ]

/-- The six function declarations of the header, in source order
(lines 20–39), all inside the `extern "C"` block. -/
def headerFunctions : List CFunDecl :=
  [ ⟨"cImGui_ImplMetal_Init",
      [("device", CParamType.alias "cImGui_MTLDevice")],
      CType.bool, Linkage.c⟩,
    ⟨"cImGui_ImplMetal_Shutdown", [], CType.void, Linkage.c⟩,
    ⟨"cImGui_ImplMetal_NewFrame",
      [("renderPassDescriptor", CParamType.alias "cImGui_MTLRenderPassDescriptor")],
      CType.void, Linkage.c⟩,
    ⟨"cImGui_ImplMetal_RenderDrawData",
      [("drawData", CParamType.alias "cImGui_ImDrawData"),
       ("commandBuffer", CParamType.alias "cImGui_MTLCommandBuffer"),
       ("commandEncoder", CParamType.alias "cImGui_MTLRenderCommandEncoder")],
      CType.void, Linkage.c⟩,
    ⟨"cImGui_ImplMetal_CreateDeviceObjects",
      [("device", CParamType.alias "cImGui_MTLDevice")],
      CType.bool, Linkage.c⟩,
    ⟨"cImGui_ImplMetal_DestroyDeviceObjects", [], CType.void, Linkage.c⟩ ]

/-- Resolve a written parameter type to the underlying C type, using the
header's typedef list. -/
def resolveParamType : CParamType → Option CType
  | CParamType.alias n =>
      (headerTypedefs.find? (fun td => td.name == n)).map CTypedef.target
  | CParamType.base t => some t

/-- An argument whose written type is alias `a` type-checks in a
position whose written type is alias `b` exactly when the two aliases
resolve to the same underlying C type (C typedefs introduce no new
types, only synonyms). -/
def aliasCompatible (a b : String) : Bool :=
  resolveParamType (CParamType.alias a) == resolveParamType (CParamType.alias b)

/-! ## Caller protocol

Modelled from the spec: the implementation file `imgui_impl_metal.mm`
is not in the repository snapshot, so the sequencing contract — "Init
before any frame, NewFrame before the GUI library's own frame-start
call, RenderDrawData only after the GUI library's own render call,
Shutdown only after all frames are complete", and "Shutdown … must not
be called before Init or more than once without an intervening Init" —
is rendered as a small automaton over the calls visible at this
interface together with the GUI library's own two per-frame calls. -/

/-- Events at the binding boundary: the four lifecycle calls of the
shim plus the GUI library's own frame-start (`ImGui::NewFrame`) and
render (`ImGui::Render`) calls, which the header comments order the
shim calls against. -/
inductive Ev where
  | init : Ev
  | shutdown : Ev
  | newFrame : Ev
  | renderDrawData : Ev
  | guiNewFrame : Ev
  | guiRender : Ev
  deriving DecidableEq, Fintype, Repr

/-- Protocol states: backend not initialized; initialized with no frame
in flight; `NewFrame` issued; GUI frame started; GUI render finalized
(draw data ready). -/
inductive PState where
  | uninit : PState
  | idle : PState
  | newFramed : PState
  | inFrame : PState
  | rendered : PState
  deriving DecidableEq, Fintype, Repr

/-- Modelled from the spec: one step of the caller protocol.  `none`
means the event is illegal in that state. -/
def step : PState → Ev → Option PState
  | PState.uninit, Ev.init => some PState.idle
  | PState.idle, Ev.shutdown => some PState.uninit
  | PState.idle, Ev.newFrame => some PState.newFramed
  | PState.newFramed, Ev.guiNewFrame => some PState.inFrame
  | PState.inFrame, Ev.guiRender => some PState.rendered
  | PState.rendered, Ev.renderDrawData => some PState.idle
  | _, _ => none

/-- Run a trace of events from a state; `none` as soon as an event is
illegal. -/
def run : PState → List Ev → Option PState
  | s, [] => some s
  | s, e :: tr => (step s e).bind (fun s' => run s' tr)

/-- A call sequence is legal when it runs to completion from the
uninitialized state. -/
def legalTrace (tr : List Ev) : Prop :=
  (run PState.uninit tr).isSome

instance (tr : List Ev) : Decidable (legalTrace tr) := by
  unfold legalTrace; infer_instance

/-- Number of frames in flight in a given protocol state. -/
def openFrames : PState → Nat
  | PState.uninit => 0
  | PState.idle => 0
  | PState.newFramed => 1
  | PState.inFrame => 1
  | PState.rendered => 1

/-- Number of backends that exist in a given protocol state: the whole
protocol carries one global `PState`, and a backend exists exactly when
the state is not `uninit`. -/
def backendCount : PState → Nat
  | PState.uninit => 0
  | _ => 1

/-! ## Device-object state

Modelled from the spec: the implementation is not in the repository
snapshot; the spec describes `CreateDeviceObjects` as an "Idempotent
re-creation hook" whose success flag is owned by the wrapped library,
and `DestroyDeviceObjects` as an "Idempotent teardown hook".  Device
handles are modelled as natural numbers (addresses); the verdict of the
wrapped library on a device is a parameter `devOk`. -/

/-- The device-object state of the backend: which device (if any)
currently has device objects created for it. -/
structure BackendState where
  deviceObjects : Option Nat
  deriving DecidableEq, Repr

/-- Modelled from the spec: `cImGui_ImplMetal_CreateDeviceObjects`
(re)creates the device objects for the given device, reporting the
wrapped library verdict `devOk device` as its success flag. -/
def cImGui_ImplMetal_CreateDeviceObjects (devOk : Nat → Bool) (device : Nat)
    (_s : BackendState) : BackendState × Bool :=
  if devOk device then ({ deviceObjects := some device }, true)
  else ({ deviceObjects := none }, false)

/-- Modelled from the spec: `cImGui_ImplMetal_DestroyDeviceObjects`
releases whatever device objects exist. -/
def cImGui_ImplMetal_DestroyDeviceObjects (_s : BackendState) : BackendState :=
  { deviceObjects := none }

/-! ## Pass-through semantics of the six functions

Modelled from the spec: each function translates its `void*` handles to
the concrete native graphics-API types and calls the corresponding
function of the wrapped library, doing nothing else.  The wrapped
library is abstracted as a state transformer `lib` over an arbitrary
state type; handles are natural numbers (addresses). -/

/-- Concrete native device type (stands for `id<MTLDevice>`). -/
structure MTLDevice where
  ptr : Nat
  deriving DecidableEq, Repr

/-- Concrete native command-buffer type. -/
structure MTLCommandBuffer where
  ptr : Nat
  deriving DecidableEq, Repr

/-- Concrete native render-command-encoder type. -/
structure MTLRenderCommandEncoder where
  ptr : Nat
  deriving DecidableEq, Repr

/-- Concrete native render-pass-descriptor type. -/
structure MTLRenderPassDescriptor where
  ptr : Nat
  deriving DecidableEq, Repr

/-- Concrete draw-data type of the GUI library. -/
structure ImDrawData where
  ptr : Nat
  deriving DecidableEq, Repr

/-- Cast a `void*` handle to the concrete native device type. -/
def castDevice (h : Nat) : MTLDevice := ⟨h⟩

/-- Cast a `void*` handle to the concrete command-buffer type. -/
def castCommandBuffer (h : Nat) : MTLCommandBuffer := ⟨h⟩

/-- Cast a `void*` handle to the concrete encoder type. -/
def castRenderCommandEncoder (h : Nat) : MTLRenderCommandEncoder := ⟨h⟩

/-- Cast a `void*` handle to the concrete render-pass-descriptor type. -/
def castRenderPassDescriptor (h : Nat) : MTLRenderPassDescriptor := ⟨h⟩

/-- Cast a `void*` handle to the concrete draw-data type. -/
def castDrawData (h : Nat) : ImDrawData := ⟨h⟩

/-- A call at the C binding surface, with `void*` handles as raw
addresses. -/
inductive CCall where
  | init (device : Nat) : CCall
  | shutdown : CCall
  | newFrame (renderPassDescriptor : Nat) : CCall
  | renderDrawData (drawData commandBuffer commandEncoder : Nat) : CCall
  | createDeviceObjects (device : Nat) : CCall
  | destroyDeviceObjects : CCall
  deriving DecidableEq, Repr

/-- A call into the wrapped rendering library backend, with concrete
native argument types. -/
inductive NativeCall where
  | init (device : MTLDevice) : NativeCall
  | shutdown : NativeCall
  | newFrame (renderPassDescriptor : MTLRenderPassDescriptor) : NativeCall
  | renderDrawData (drawData : ImDrawData) (commandBuffer : MTLCommandBuffer)
      (commandEncoder : MTLRenderCommandEncoder) : NativeCall
  | createDeviceObjects (device : MTLDevice) : NativeCall
  | destroyDeviceObjects : NativeCall
  deriving DecidableEq, Repr

namespace Shim

/-- Modelled from the spec: the shim `cImGui_ImplMetal_Init` casts the
device handle and calls the wrapped library init. -/
def cImGui_ImplMetal_Init {σ : Type} (lib : σ → NativeCall → σ × Bool)
    (s : σ) (device : Nat) : σ × Bool :=
  lib s (NativeCall.init (castDevice device))

/-- Modelled from the spec: the shim `cImGui_ImplMetal_Shutdown` calls
the wrapped library shutdown. -/
def cImGui_ImplMetal_Shutdown {σ : Type} (lib : σ → NativeCall → σ × Bool)
    (s : σ) : σ × Bool :=
  lib s NativeCall.shutdown

/-- Modelled from the spec: the shim `cImGui_ImplMetal_NewFrame` casts
the render-pass-descriptor handle and calls the wrapped library
new-frame. -/
def cImGui_ImplMetal_NewFrame {σ : Type} (lib : σ → NativeCall → σ × Bool)
    (s : σ) (renderPassDescriptor : Nat) : σ × Bool :=
  lib s (NativeCall.newFrame (castRenderPassDescriptor renderPassDescriptor))

/-- Modelled from the spec: the shim `cImGui_ImplMetal_RenderDrawData`
casts its three handles and calls the wrapped library render. -/
def cImGui_ImplMetal_RenderDrawData {σ : Type} (lib : σ → NativeCall → σ × Bool)
    (s : σ) (drawData commandBuffer commandEncoder : Nat) : σ × Bool :=
  lib s (NativeCall.renderDrawData (castDrawData drawData)
    (castCommandBuffer commandBuffer) (castRenderCommandEncoder commandEncoder))

/-- Modelled from the spec: the shim `cImGui_ImplMetal_CreateDeviceObjects`
casts the device handle and calls the wrapped library create. -/
def cImGui_ImplMetal_CreateDeviceObjects {σ : Type} (lib : σ → NativeCall → σ × Bool)
    (s : σ) (device : Nat) : σ × Bool :=
  lib s (NativeCall.createDeviceObjects (castDevice device))

/-- Modelled from the spec: the shim `cImGui_ImplMetal_DestroyDeviceObjects`
calls the wrapped library destroy. -/
def cImGui_ImplMetal_DestroyDeviceObjects {σ : Type} (lib : σ → NativeCall → σ × Bool)
    (s : σ) : σ × Bool :=
  lib s NativeCall.destroyDeviceObjects

end Shim

/-- Dispatch a C-surface call to the shim function of the same name. -/
def shimCall {σ : Type} (lib : σ → NativeCall → σ × Bool) (s : σ) :
    CCall → σ × Bool
  | CCall.init d => Shim.cImGui_ImplMetal_Init lib s d
  | CCall.shutdown => Shim.cImGui_ImplMetal_Shutdown lib s
  | CCall.newFrame r => Shim.cImGui_ImplMetal_NewFrame lib s r
  | CCall.renderDrawData dd cb enc =>
      Shim.cImGui_ImplMetal_RenderDrawData lib s dd cb enc
  | CCall.createDeviceObjects d =>
      Shim.cImGui_ImplMetal_CreateDeviceObjects lib s d
  | CCall.destroyDeviceObjects => Shim.cImGui_ImplMetal_DestroyDeviceObjects lib s

/-- The reference translation stated by the spec: a C-surface call is
the native call on the same arguments after casting each handle to its
concrete native type. -/
def translateCall : CCall → NativeCall
  | CCall.init d => NativeCall.init (castDevice d)
  | CCall.shutdown => NativeCall.shutdown
  | CCall.newFrame r => NativeCall.newFrame (castRenderPassDescriptor r)
  | CCall.renderDrawData dd cb enc =>
      NativeCall.renderDrawData (castDrawData dd) (castCommandBuffer cb)
        (castRenderCommandEncoder enc)
  | CCall.createDeviceObjects d => NativeCall.createDeviceObjects (castDevice d)
  | CCall.destroyDeviceObjects => NativeCall.destroyDeviceObjects

/-- Run a sequence of C-surface calls through the shim, collecting the
result flags. -/
def runShim {σ : Type} (lib : σ → NativeCall → σ × Bool) (s : σ) :
    List CCall → σ × List Bool
  | [] => (s, [])
  | c :: cs =>
      let r := shimCall lib s c
      let rest := runShim lib r.1 cs
      (rest.1, r.2 :: rest.2)

/-- Run a sequence of native calls directly against the wrapped
library, collecting the result flags. -/
def runNative {σ : Type} (lib : σ → NativeCall → σ × Bool) (s : σ) :
    List NativeCall → σ × List Bool
  | [] => (s, [])
  | n :: ns =>
      let r := lib s n
      let rest := runNative lib r.1 ns
      (rest.1, r.2 :: rest.2)

/-! ## Heap frame model

Modelled from the spec: the native objects behind the handles live in a
heap owned by the native graphics API and the GUI library; the shim
only passes the pointers through.  The heap maps addresses to object
contents (abstracted as numbers). -/

/-- The heap of native objects: address to contents. -/
def Heap : Type := Nat → Nat

/-- Modelled from the spec: the contribution of the shim itself on one
call — the heap of native objects is left untouched and the translated
call is forwarded to the wrapped library. -/
def shimOwnStep (h : Heap) (c : CCall) : Heap × NativeCall :=
  (h, translateCall c)

/-- The contribution of the shim itself over a call sequence: the final
heap and the forwarded native calls. -/
def shimOwnRun (h : Heap) : List CCall → Heap × List NativeCall
  | [] => (h, [])
  | c :: cs =>
      let r := shimOwnStep h c
      let rest := shimOwnRun r.1 cs
      (rest.1, r.2 :: rest.2)

/-! ## Helper lemmas on the protocol automaton -/

theorem run_append (a b : List Ev) (s : PState) :
    run s (a ++ b) = (run s a).bind (fun s' => run s' b) := by
  induction a generalizing s with
  | nil => rfl
  | cons e a ih =>
      simp only [List.cons_append, run]
      cases step s e with
      | none => rfl
      | some s' => exact ih s'

theorem run_singleton (s : PState) (e : Ev) : run s [e] = step s e := by
  simp [run]

/-- The only event legal in the uninitialized state is `init`. -/
theorem step_uninit_forces_init : ∀ e : Ev, ∀ s' : PState,
    step PState.uninit e = some s' → e = Ev.init := by decide

/-- `newFrame` is legal only in the `idle` state. -/
theorem step_newFrame_src : ∀ s s' : PState,
    step s Ev.newFrame = some s' → s = PState.idle := by decide

/-- `renderDrawData` is legal only in the `rendered` state. -/
theorem step_renderDrawData_src : ∀ s s' : PState,
    step s Ev.renderDrawData = some s' → s = PState.rendered := by decide

/-- `guiNewFrame` is legal only in the `newFramed` state. -/
theorem step_guiNewFrame_src : ∀ s s' : PState,
    step s Ev.guiNewFrame = some s' → s = PState.newFramed := by decide

/-- `shutdown` is legal only in the `idle` state and leads to
`uninit`. -/
theorem step_shutdown_src : ∀ s s' : PState,
    step s Ev.shutdown = some s' → s = PState.idle ∧ s' = PState.uninit := by
  decide

/-- The `newFramed` state is entered only by a `newFrame` event. -/
theorem step_enter_newFramed : ∀ (s : PState) (e : Ev),
    step s e = some PState.newFramed → e = Ev.newFrame := by decide

/-- The `rendered` state is entered only by a `guiRender` event. -/
theorem step_enter_rendered : ∀ (s : PState) (e : Ev),
    step s e = some PState.rendered → e = Ev.guiRender := by decide

/-- A run from `uninit` that reaches any other state contains an `init`
event. -/
theorem init_mem_of_run (tr : List Ev) (s' : PState)
    (h : run PState.uninit tr = some s') (hne : s' ≠ PState.uninit) :
    Ev.init ∈ tr := by
  cases tr with
  | nil => exact absurd (Option.some.inj h).symm hne
  | cons e tr' =>
      simp only [run] at h
      obtain ⟨s1, hstep, -⟩ := Option.bind_eq_some.mp h
      have := step_uninit_forces_init e s1 hstep
      subst this
      exact List.mem_cons_self _ _

/-- A legal trace decomposed around one event yields the state reached
before the event, and the event is legal there. -/
theorem legal_decomp (pre suf : List Ev) (e : Ev)
    (h : legalTrace (pre ++ e :: suf)) :
    ∃ s1 s2, run PState.uninit pre = some s1 ∧ step s1 e = some s2 := by
  unfold legalTrace at h
  rw [run_append] at h
  cases hr : run PState.uninit pre with
  | none => rw [hr] at h; simp at h
  | some s1 =>
      rw [hr] at h
      obtain ⟨sf, hsf⟩ := Option.isSome_iff_exists.mp h
      simp only [Option.some_bind, run] at hsf
      obtain ⟨s2, hstep, -⟩ := Option.bind_eq_some.mp hsf
      exact ⟨s1, s2, rfl, hstep⟩

/-- A run from `uninit` ending in `newFramed` has `newFrame` as its
final event. -/
theorem run_newFramed_last (pre : List Ev)
    (h : run PState.uninit pre = some PState.newFramed) :
    ∃ pre', pre = pre' ++ [Ev.newFrame] := by
  rcases List.eq_nil_or_concat pre with hnil | ⟨a, e, rfl⟩
  · subst hnil; exact absurd (Option.some.inj h) (by decide)
  · simp only [List.concat_eq_append] at h ⊢
    rw [run_append] at h
    obtain ⟨s1, h1, h2⟩ := Option.bind_eq_some.mp h
    rw [run_singleton] at h2
    exact ⟨a, by rw [step_enter_newFramed s1 e h2]⟩

/-- A run from `uninit` ending in `rendered` has `guiRender` as its
final event. -/
theorem run_rendered_last (pre : List Ev)
    (h : run PState.uninit pre = some PState.rendered) :
    ∃ pre', pre = pre' ++ [Ev.guiRender] := by
  rcases List.eq_nil_or_concat pre with hnil | ⟨a, e, rfl⟩
  · subst hnil; exact absurd (Option.some.inj h) (by decide)
  · simp only [List.concat_eq_append] at h ⊢
    rw [run_append] at h
    obtain ⟨s1, h1, h2⟩ := Option.bind_eq_some.mp h
    rw [run_singleton] at h2
    exact ⟨a, by rw [step_enter_rendered s1 e h2]⟩

/-- Each step changes the frame balance by exactly its event
contribution. -/
theorem step_openFrames : ∀ (s s' : PState) (e : Ev), step s e = some s' →
    openFrames s + (if e = Ev.newFrame then 1 else 0) =
      openFrames s' + (if e = Ev.renderDrawData then 1 else 0) := by decide

/-- Along any run, opened frames minus completed frames equals the
change in the frame balance of the state. -/
theorem run_openFrames (tr : List Ev) (s s' : PState)
    (h : run s tr = some s') :
    tr.count Ev.newFrame + openFrames s =
      tr.count Ev.renderDrawData + openFrames s' := by
  induction tr generalizing s with
  | nil =>
      obtain rfl : s = s' := Option.some.inj h
      rfl
  | cons e tr ih =>
      simp only [run] at h
      obtain ⟨s1, hstep, hrun⟩ := Option.bind_eq_some.mp h
      have hstepc := step_openFrames s s1 e hstep
      have hind := ih s1 hrun
      rw [List.count_cons, List.count_cons]
      by_cases h1 : e = Ev.newFrame <;> by_cases h2 : e = Ev.renderDrawData <;>
        simp [h1, h2] at hstepc ⊢ <;> omega

/-! ## Claim theorems -/

/-- Claim C1: the public interface consists of exactly the five opaque
pointer typedefs and the six functions listed, all with C linkage. -/
theorem c1_interface_surface :
    headerTypedefs.map CTypedef.name =
      ["cImGui_MTLDevice", "cImGui_MTLCommandBuffer",
       "cImGui_MTLRenderCommandEncoder", "cImGui_MTLRenderPassDescriptor",
       "cImGui_ImDrawData"] ∧
    (∀ td ∈ headerTypedefs, td.target = CType.ptr CType.void) ∧
    headerFunctions.map CFunDecl.name =
      ["cImGui_ImplMetal_Init", "cImGui_ImplMetal_Shutdown",
       "cImGui_ImplMetal_NewFrame", "cImGui_ImplMetal_RenderDrawData",
       "cImGui_ImplMetal_CreateDeviceObjects",
       "cImGui_ImplMetal_DestroyDeviceObjects"] ∧
    (∀ f ∈ headerFunctions, f.linkage = Linkage.c) := by decide

/-- Claim C2: exactly `Init` and `CreateDeviceObjects` return `bool`;
the other four return `void`; every return type is one of the two, so
no error codes or messages are reported. -/
theorem c2_return_types :
    ((headerFunctions.filter fun f => f.ret == CType.bool).map CFunDecl.name =
      ["cImGui_ImplMetal_Init", "cImGui_ImplMetal_CreateDeviceObjects"]) ∧
    ((headerFunctions.filter fun f => f.ret == CType.void).map CFunDecl.name =
      ["cImGui_ImplMetal_Shutdown", "cImGui_ImplMetal_NewFrame",
       "cImGui_ImplMetal_RenderDrawData",
       "cImGui_ImplMetal_DestroyDeviceObjects"]) ∧
    (∀ f ∈ headerFunctions, f.ret = CType.bool ∨ f.ret = CType.void) := by
  decide

/-- Claim C3: the parameter list of each function, in order, is as the
contract table states. -/
theorem c3_parameter_lists :
    (headerFunctions.map fun f => (f.name, f.params.map Prod.snd)) =
      [("cImGui_ImplMetal_Init", [CParamType.alias "cImGui_MTLDevice"]),
       ("cImGui_ImplMetal_Shutdown", []),
       ("cImGui_ImplMetal_NewFrame",
         [CParamType.alias "cImGui_MTLRenderPassDescriptor"]),
       ("cImGui_ImplMetal_RenderDrawData",
         [CParamType.alias "cImGui_ImDrawData",
          CParamType.alias "cImGui_MTLCommandBuffer",
          CParamType.alias "cImGui_MTLRenderCommandEncoder"]),
       ("cImGui_ImplMetal_CreateDeviceObjects",
         [CParamType.alias "cImGui_MTLDevice"]),
       ("cImGui_ImplMetal_DestroyDeviceObjects", [])] := by decide

/-- Claim C4: in every legal call sequence, `init` precedes every
`newFrame` and `renderDrawData`; `newFrame` immediately precedes the
GUI frame-start call of that frame; `renderDrawData` immediately
follows the GUI render call of that frame; `shutdown` happens only
after `init` and only with every started frame completed; and no two
`shutdown` events occur without an `init` between them. -/
theorem c4_call_ordering (tr : List Ev) (h : legalTrace tr) :
    (∀ pre e suf, tr = pre ++ e :: suf →
        e = Ev.newFrame ∨ e = Ev.renderDrawData → Ev.init ∈ pre) ∧
    (∀ pre suf, tr = pre ++ Ev.guiNewFrame :: suf →
        ∃ pre', pre = pre' ++ [Ev.newFrame]) ∧
    (∀ pre suf, tr = pre ++ Ev.renderDrawData :: suf →
        ∃ pre', pre = pre' ++ [Ev.guiRender]) ∧
    (∀ pre suf, tr = pre ++ Ev.shutdown :: suf →
        Ev.init ∈ pre ∧ pre.count Ev.newFrame = pre.count Ev.renderDrawData) ∧
    (∀ pre mid suf,
        tr = pre ++ Ev.shutdown :: (mid ++ Ev.shutdown :: suf) →
        Ev.init ∈ mid) := by
  refine ⟨?_, ?_, ?_, ?_, ?_⟩
  · rintro pre e suf rfl he
    obtain ⟨s1, s2, hrun, hstep⟩ := legal_decomp pre suf e h
    rcases he with rfl | rfl
    · have hs := step_newFrame_src s1 s2 hstep
      subst hs
      exact init_mem_of_run pre _ hrun (by decide)
    · have hs := step_renderDrawData_src s1 s2 hstep
      subst hs
      exact init_mem_of_run pre _ hrun (by decide)
  · rintro pre suf rfl
    obtain ⟨s1, s2, hrun, hstep⟩ := legal_decomp pre suf Ev.guiNewFrame h
    have hs := step_guiNewFrame_src s1 s2 hstep
    subst hs
    exact run_newFramed_last pre hrun
  · rintro pre suf rfl
    obtain ⟨s1, s2, hrun, hstep⟩ := legal_decomp pre suf Ev.renderDrawData h
    have hs := step_renderDrawData_src s1 s2 hstep
    subst hs
    exact run_rendered_last pre hrun
  · rintro pre suf rfl
    obtain ⟨s1, s2, hrun, hstep⟩ := legal_decomp pre suf Ev.shutdown h
    obtain ⟨hs, -⟩ := step_shutdown_src s1 s2 hstep
    subst hs
    refine ⟨init_mem_of_run pre _ hrun (by decide), ?_⟩
    have hof := run_openFrames pre PState.uninit PState.idle hrun
    simpa [openFrames] using hof
  · rintro pre mid suf rfl
    have h' : legalTrace ((pre ++ Ev.shutdown :: mid) ++ Ev.shutdown :: suf) := by
      simpa [List.append_assoc] using h
    obtain ⟨s1, s2, hrun, hstep⟩ := legal_decomp _ suf Ev.shutdown h'
    obtain ⟨hs, -⟩ := step_shutdown_src s1 s2 hstep
    subst hs
    rw [run_append] at hrun
    obtain ⟨sa, hpre, hrest⟩ := Option.bind_eq_some.mp hrun
    simp only [run] at hrest
    obtain ⟨sb, hsb, hmid⟩ := Option.bind_eq_some.mp hrest
    obtain ⟨-, hb⟩ := step_shutdown_src sa sb hsb
    subst hb
    exact init_mem_of_run mid _ hmid (by decide)

/-- A concrete legal call sequence: one full frame between `init` and
`shutdown`. -/
def c4Trace : List Ev :=
  [Ev.init, Ev.newFrame, Ev.guiNewFrame, Ev.guiRender,
   Ev.renderDrawData, Ev.shutdown]

/-- Witness for claim C4 at the concrete trace `c4Trace`. -/
theorem c4_call_ordering_witness :
    legalTrace c4Trace ∧
    (∀ pre e suf, c4Trace = pre ++ e :: suf →
        e = Ev.newFrame ∨ e = Ev.renderDrawData → Ev.init ∈ pre) :=
  ⟨by decide, (c4_call_ordering c4Trace (by decide)).1⟩

/-- Claim C5: `cImGui_ImplMetal_CreateDeviceObjects` is idempotent — a
second call with the same device yields the same state and result as
one call — and `cImGui_ImplMetal_DestroyDeviceObjects` is idempotent. -/
theorem c5_device_object_hooks_idempotent (devOk : Nat → Bool) (device : Nat)
    (s : BackendState) :
    cImGui_ImplMetal_CreateDeviceObjects devOk device
        (cImGui_ImplMetal_CreateDeviceObjects devOk device s).1 =
      cImGui_ImplMetal_CreateDeviceObjects devOk device s ∧
    cImGui_ImplMetal_DestroyDeviceObjects
        (cImGui_ImplMetal_DestroyDeviceObjects s) =
      cImGui_ImplMetal_DestroyDeviceObjects s := by
  constructor
  · by_cases hd : devOk device <;>
      simp [cImGui_ImplMetal_CreateDeviceObjects, hd]
  · rfl

/-- Counterexample to claim C6: the header does not declare four
distinct opaque type aliases. -/
theorem c6_counterexample :
    ¬ ((headerTypedefs.map CTypedef.name).dedup.length = 4) := by decide

/-- Claim C6 (amended): the components are the opaque type aliases and
the function declarations, and the number of distinct opaque type
aliases declared is five (with six functions). -/
theorem c6_distinct_alias_count :
    (headerTypedefs.map CTypedef.name).Nodup ∧
    headerTypedefs.length = 5 ∧ headerFunctions.length = 6 := by decide

/-- Claim C7: every function is a pure pass-through — running any call
sequence through the shim equals calling the wrapped library directly
on the translated calls, in final state and in every result flag. -/
theorem c7_pass_through {σ : Type} (lib : σ → NativeCall → σ × Bool) (s : σ)
    (cs : List CCall) :
    runShim lib s cs = runNative lib s (cs.map translateCall) := by
  induction cs generalizing s with
  | nil => rfl
  | cons c cs ih =>
      have hc : shimCall lib s c = lib s (translateCall c) := by
        cases c <;> rfl
      simp [runShim, runNative, hc, ih]

/-- Claim C8: over any call sequence, the shim by itself leaves every
native object unchanged (the heap is returned intact) and never
inspects one (the forwarded calls do not depend on heap contents). -/
theorem c8_heap_frame (h h2 : Heap) (cs : List CCall) :
    (shimOwnRun h cs).1 = h ∧ (shimOwnRun h cs).2 = (shimOwnRun h2 cs).2 := by
  induction cs generalizing h h2 with
  | nil => exact ⟨rfl, rfl⟩
  | cons c cs ih =>
      exact ⟨(ih h h2).1, by simp [shimOwnRun, shimOwnStep, (ih h h2).2]⟩

/-- Claim C9: all five handle typedefs alias the identical type
`void*`, so a handle of any kind type-checks wherever another kind is
expected and no call is rejected on handle-kind grounds. -/
theorem c9_handles_interchangeable :
    (∀ td ∈ headerTypedefs, td.target = CType.ptr CType.void) ∧
    (∀ a ∈ headerTypedefs, ∀ b ∈ headerTypedefs,
        aliasCompatible a.name b.name = true) := by decide

/-- Claim C10: `Shutdown` and `DestroyDeviceObjects` take no parameters
identifying a backend, and the protocol state carries at most one
backend instance at any time. -/
theorem c10_single_global_backend :
    ((headerFunctions.find? fun f =>
        f.name == "cImGui_ImplMetal_Shutdown").map CFunDecl.params =
      some []) ∧
    ((headerFunctions.find? fun f =>
        f.name == "cImGui_ImplMetal_DestroyDeviceObjects").map CFunDecl.params =
      some []) ∧
    (∀ s : PState, backendCount s ≤ 1) := by decide

end CImGuiMetal
